import Mathlib

/-!
# Verification of the dbtester agent lifecycle controller

Shallow embedding of the process lifecycle controller of the dbtester
agent (`agent/agent.go`) and of the remote-storage uploader
(`remotestorage`).  Pure Lean functions model the state mutations and
the order of the observable effects (sleeps, signals, file closes,
upload triggers) of the `Transfer` RPC handler, the monitoring loop,
the per-artifact upload retry loop, and the directory-upload
orchestration.  Theorems at the end settle the specification claims.
-/

namespace Agent

/-- Operation tag of an inbound gRPC `Request`
(`Request_Start | Request_Stop | Request_UploadLog`). -/
inductive Request_Operation
  | Start
  | Stop
  | UploadLog
  deriving DecidableEq, Repr

/-- Database engine enum of a `Request`
(`Request_etcdv2 | Request_etcdv3 | Request_zetcd | Request_cetcd |
Request_ZooKeeper | Request_Consul`). -/
inductive Request_Database
  | etcdv2
  | etcdv3
  | zetcd
  | cetcd
  | ZooKeeper
  | Consul
  deriving DecidableEq, Repr

/-- `Database.String()` of the generated enum: the proto name of the value. -/
def Request_Database.str : Request_Database → String
  | .etcdv2 => "etcdv2"
  | .etcdv3 => "etcdv3"
  | .zetcd => "zetcd"
  | .cetcd => "cetcd"
  | .ZooKeeper => "ZooKeeper"
  | .Consul => "Consul"

/-- The fields of the gRPC `Request` used by the `Transfer` handler. -/
structure Request where
  Operation : Request_Operation
  Database : Request_Database
  PeerIPString : String
  ServerIndex : Nat
  ZookeeperMyID : Nat
  ZookeeperMaxClientCnxns : Int
  ZookeeperSnapCount : Int
  GoogleCloudProjectName : String
  GoogleCloudStorageBucketName : String
  GoogleCloudStorageSubDirectory : String
  GoogleCloudStorageKey : String
  TestName : String
  deriving DecidableEq, Repr

/-- Controller State: the mutable fields of `transporterServer`.
Handles (`*exec.Cmd`, `*os.File`) are modelled by their presence
(nil-ness), which is all the handler branches on. -/
structure TransporterState where
  req : Request
  cmdPresent : Bool
  pid : Int
  logfilePresent : Bool
  proxyCmdPresent : Bool
  proxyPid : Int
  proxyLogfilePresent : Bool
  deriving DecidableEq, Repr

/-- The `switch r.Operation` merge at the top of `Transfer`
(agent.go lines 203-210): `Start` replaces the whole stored request,
`UploadLog` overwrites only the three remote-storage destination
fields, `Stop` leaves the stored request unchanged. -/
def mergeRequest (t : TransporterState) (r : Request) : TransporterState :=
  match r.Operation with
  | .Start => { t with req := r }
  | .UploadLog =>
      { t with req :=
        { t.req with
          GoogleCloudProjectName := r.GoogleCloudProjectName
          GoogleCloudStorageBucketName := r.GoogleCloudStorageBucketName
          GoogleCloudStorageSubDirectory := r.GoogleCloudStorageSubDirectory } }
  | .Stop => t

/-- Observable effects of the `Stop` / `UploadLog` branches of `Transfer`,
in the order the handler performs them. -/
inductive AgentEvent
  | gracewait
  | signalPrimary
  | closePrimaryLog
  | signalProxy
  | closeProxyLog
  | syncLog
  | triggerUpload
  deriving DecidableEq, Repr

/-- The `Request_Stop` branch of `Transfer` (agent.go lines 473-498),
as the ordered trace of its effects together with the RPC outcome
(`true` = success response, `false` = error return).  Inputs are the
nil-ness of the four handles and whether each `syscall.Kill` succeeds;
a failed kill returns the error immediately, skipping the rest. -/
def stopRun (cmdPresent logfilePresent proxyCmdPresent proxyLogfilePresent
    primaryKillOk proxyKillOk : Bool) : List AgentEvent × Bool :=
  if !cmdPresent then
    ([.gracewait], false)
  else if !primaryKillOk then
    ([.gracewait, .signalPrimary], false)
  else
    let tr := [AgentEvent.gracewait, AgentEvent.signalPrimary] ++
      (if logfilePresent then [AgentEvent.closePrimaryLog] else [])
    if proxyCmdPresent then
      if !proxyKillOk then
        (tr ++ [.signalProxy], false)
      else
        (tr ++ [AgentEvent.signalProxy] ++
          (if proxyLogfilePresent then [AgentEvent.closeProxyLog] else []) ++
          [AgentEvent.triggerUpload], true)
    else
      (tr ++ (if proxyLogfilePresent then [AgentEvent.closeProxyLog] else []) ++
        [AgentEvent.triggerUpload], true)

/-- The `Request_UploadLog` branch of `Transfer` (agent.go lines 500-506):
grace wait, sync of the database log if a handle is open, upload
trigger; it always returns success (no nil-command check). -/
def uploadLogRun (logfilePresent : Bool) : List AgentEvent × Bool :=
  ([AgentEvent.gracewait] ++
    (if logfilePresent then [AgentEvent.syncLog] else []) ++
    [AgentEvent.triggerUpload], true)

/-- `e` is a process-signaling effect. -/
def AgentEvent.isSignal : AgentEvent → Bool
  | .signalPrimary => true
  | .signalProxy => true
  | _ => false

/-- `e` is a log-file-closing effect. -/
def AgentEvent.isClose : AgentEvent → Bool
  | .closePrimaryLog => true
  | .closeProxyLog => true
  | _ => false

/-- In trace `tr`, every event satisfying `p` occurs before every event
satisfying `q` (no `p`-event at or after a `q`-event). -/
def allBefore (p q : AgentEvent → Bool) : List AgentEvent → Bool
  | [] => true
  | e :: rest =>
      (if q e then rest.all (fun x => !(p x)) && !(p e) else true) && allBefore p q rest

/-! ## Monitoring loop (the goroutine spawned on `Start`, agent.go 512-650) -/

/-- One wake-up of the monitoring loop's `select`: the 1-second sample
timer (with the outcome of `rFunc`), a value on `uploadSig` (with the
outcome of `uploadFunc`), or an OS interrupt/termination signal. -/
inductive LoopEvent
  | timerTick (sampleOk : Bool)
  | uploadSignal (op : Request_Operation) (uploadOk : Bool)
  | osSignal
  deriving DecidableEq, Repr

/-- Whether the monitoring loop keeps looping after handling an event. -/
inductive LoopDecision
  | continueLoop
  | exitLoop
  deriving DecidableEq, Repr

/-- The body of the monitoring loop's `for { select { ... } }`
(agent.go lines 626-648): a sample tick continues the loop whether or
not sampling succeeded; an `uploadSig` value runs `uploadFunc` and, on
its error, exits; on success it continues only for `Request_UploadLog`
and exits for `Request_Stop`; an OS signal exits immediately. -/
def loopStep : LoopEvent → LoopDecision
  | .timerTick _ => .continueLoop
  | .uploadSignal op uploadOk =>
      if !uploadOk then .exitLoop
      else if op = .UploadLog then .continueLoop
      else .exitLoop
  | .osSignal => .exitLoop

/-- The monitoring loop's sampling period: `time.After(time.Second)`. -/
def monitorSampleIntervalSeconds : Nat := 1

/-! ## Upload pipeline (`uploadFunc`, agent.go 539-624) -/

/-- Retry bound of the per-artifact loop: `for k := 0; k < 30; k++`. -/
def retryLimit : Nat := 30

/-- Backoff after a failed attempt: `time.Sleep(2 * time.Second)`. -/
def retryBackoffSeconds : Nat := 2

/-- Result of one artifact's retry loop: how many upload attempts were
made, whether one succeeded, and the total seconds slept in backoff. -/
structure RetryResult where
  attempts : Nat
  success : Bool
  sleepSeconds : Nat
  deriving DecidableEq, Repr

/-- The retry loop from iteration index `k` with `remaining` iterations
left (`remaining = retryLimit - k`).  `upload j` is the outcome of
`u.UploadFile` on the (0-based) `j`-th attempt: on failure the loop
sleeps the backoff and continues, on success it breaks. -/
def retryLoop (upload : Nat → Bool) : Nat → Nat → RetryResult
  | _, 0 => ⟨0, false, 0⟩
  | k, remaining + 1 =>
      if upload k then ⟨1, true, 0⟩
      else
        let r := retryLoop upload (k + 1) remaining
        ⟨r.attempts + 1, r.success, r.sleepSeconds + retryBackoffSeconds⟩

/-- One artifact's full retry loop (`for k := 0; k < 30; k++ { ... }`). -/
def uploadRetry (upload : Nat → Bool) : RetryResult :=
  retryLoop upload 0 retryLimit

/-- `strings.HasPrefix(s, pre)`: `pre` is a leading substring of `s`. -/
def hasPrefixGo (s pre : String) : Bool := List.isPrefixOf pre.data s.data

/-- Remote destination name of an artifact (agent.go 546-551 and the
analogous blocks): the base file name, with `{test_name}-{server_index+1}-`
put in front unless the base name already starts with the test name. -/
def dstName (testName : String) (serverIndex : Nat) (base : String) : String :=
  if hasPrefixGo base testName then base
  else testName ++ "-" ++ toString (serverIndex + 1) ++ "-" ++ base

/-- `filepath.Join` of the remote sub-directory and the destination
name, for the clean relative components the agent produces. -/
def joinPath (dir name : String) : String :=
  if dir = "" then name else dir ++ "/" ++ name

/-- Full remote destination path of an artifact. -/
def dstPath (subDir testName : String) (serverIndex : Nat) (base : String) : String :=
  joinPath subDir (dstName testName serverIndex base)

/-- Environment of one `uploadFunc` run: whether
`remotestorage.NewGoogleCloudStorage` succeeds on the stored key and
project, the outcome of each artifact's upload attempts (artifact slot
→ attempt index → success), and whether the proxy log file exists on
disk. -/
structure UploadEnv where
  newClientOk : Bool
  attemptOk : Nat → Nat → Bool
  proxyLogExists : Bool

/-- Per-artifact outcome reported by an `uploadFunc` run. -/
structure ArtifactReport where
  dst : String
  attempts : Nat
  uploaded : Bool
  deriving DecidableEq, Repr

/-- Base names of the artifacts (`filepath.Base` of the log paths). -/
def databaseLogBase : String := "database.log"

/-- Base name of the monitoring table. -/
def monitorLogBase : String := "monitor.csv"

/-- Base name of the agent's own log. -/
def agentLogBase : String := "agent.log"

/-- One artifact's retry loop inside `uploadFunc`, reported with its
destination path. -/
def runArtifact (req : Request) (env : UploadEnv) (slot : Nat) (base : String) :
    ArtifactReport :=
  let r := uploadRetry (env.attemptOk slot)
  ⟨dstPath req.GoogleCloudStorageSubDirectory req.TestName req.ServerIndex base,
    r.attempts, r.success⟩

/-- `uploadFunc` (agent.go 539-624): constructing the storage client
from the stored key and project is the only error path; then the
database log, the proxy log (only for the zetcd/cetcd engines and only
if the file exists), the monitoring table, and the agent log are each
tried in turn with the 30-attempt retry loop, and the function returns
nil regardless of any per-artifact outcome. -/
def uploadFuncModel (req : Request) (env : UploadEnv) :
    Except String (List ArtifactReport) :=
  if !env.newClientOk then .error "NewGoogleCloudStorage"
  else
    let dbReport := runArtifact req env 0 databaseLogBase
    let proxyReports :=
      if req.Database = .zetcd ∨ req.Database = .cetcd then
        if env.proxyLogExists then
          [runArtifact req env 1 (databaseLogBase ++ "-" ++ req.Database.str)]
        else []
      else []
    let monitorReport := runArtifact req env 2 monitorLogBase
    let agentReport := runArtifact req env 3 agentLogBase
    .ok ([dbReport] ++ proxyReports ++ [monitorReport, agentReport])

/-! ## etcd-family `Start` flag construction (agent.go 241-266) -/

/-- `strings.Split(r.PeerIPString, "___")`. -/
def splitPeers (s : String) : List String := s.splitOn "___"

/-- `names[i] = fmt.Sprintf("etcd-%d", i+1)`. -/
def etcdName (i : Nat) : String := "etcd-" ++ toString (i + 1)

/-- `clientURLs[i] = fmt.Sprintf("http://%s:2379", u)`. -/
def clientURL (ip : String) : String := "http://" ++ ip ++ ":2379"

/-- `peerURLs[i] = fmt.Sprintf("http://%s:2380", u)`. -/
def peerURL (ip : String) : String := "http://" ++ ip ++ ":2380"

/-- `members[i] = fmt.Sprintf("%s=%s", names[i], peerURLs[i])`. -/
def memberStr (i : Nat) (ip : String) : String := etcdName i ++ "=" ++ peerURL ip

/-- The `members` slice filled by the `for i, u := range peerIPs` loop. -/
def etcdMembers (peerIPs : List String) : List String :=
  peerIPs.enum.map (fun p => memberStr p.1 p.2)

/-- `clusterStr = strings.Join(members, ",")`. -/
def clusterStr (peerIPs : List String) : String :=
  String.intercalate "," (etcdMembers peerIPs)

/-- The etcd data directory and cluster token constants. -/
def etcdToken : String := "etcd_token"

/-- The flag list the etcd-family `Start` branch passes to the etcd
binary, as a function of the parsed peer list, the server index and
the resolved data directory. -/
def etcdFlags (peerIPs : List String) (serverIndex : Nat) (dataDir : String) :
    List String :=
  [ "--name", etcdName serverIndex ] ++
  [ "--data-dir", dataDir ] ++
  [ "--listen-client-urls", clientURL (peerIPs.getD serverIndex "") ] ++
  [ "--advertise-client-urls", clientURL (peerIPs.getD serverIndex "") ] ++
  [ "--listen-peer-urls", peerURL (peerIPs.getD serverIndex "") ] ++
  [ "--initial-advertise-peer-urls", peerURL (peerIPs.getD serverIndex "") ] ++
  [ "--initial-cluster-token", etcdToken ] ++
  [ "--initial-cluster", clusterStr peerIPs ] ++
  [ "--initial-cluster-state", "new" ]

/-- The flags for a `Start` request with an etcd-family engine. -/
def startEtcdFlags (r : Request) (dataDir : String) : List String :=
  etcdFlags (splitPeers r.PeerIPString) r.ServerIndex dataDir

/-- The engines served by the etcd `Start` branch. -/
def etcdFamily (d : Request_Database) : Bool :=
  d = .etcdv2 ∨ d = .etcdv3 ∨ d = .zetcd ∨ d = .cetcd

/-- Spec-side definition for the refinement claim about the cluster
membership flag, following the spec's words: the membership string
comma-joins, for each position `i` of the `n`-element ordered peer
list, the pair `etcd-{i+1}={peer URL at position i}`. -/
def specClusterMembership (peerIPs : List String) : String :=
  String.intercalate ","
    ((List.range peerIPs.length).map
      (fun i => "etcd-" ++ toString (i + 1) ++ "=" ++
        ("http://" ++ (peerIPs.getD i "" ++ ":2380"))))

/-- A concrete inbound `UploadLog` request, used to instantiate theorems. -/
def sampleRequest : Request :=
  { Operation := Request_Operation.UploadLog
    Database := Request_Database.etcdv3
    PeerIPString := "10.0.0.1___10.0.0.2___10.0.0.3"
    ServerIndex := 1
    ZookeeperMyID := 1
    ZookeeperMaxClientCnxns := 60
    ZookeeperSnapCount := 10000
    GoogleCloudProjectName := "proj"
    GoogleCloudStorageBucketName := "bucket"
    GoogleCloudStorageSubDirectory := "subdir"
    GoogleCloudStorageKey := "key"
    TestName := "test" }

/-- A concrete Controller State with a tracked process, used to
instantiate theorems. -/
def sampleState : TransporterState :=
  { req :=
      { sampleRequest with
        Operation := Request_Operation.Start
        GoogleCloudProjectName := "oldproj"
        GoogleCloudStorageBucketName := "oldbucket"
        GoogleCloudStorageSubDirectory := "oldsub" }
    cmdPresent := true
    pid := 1234
    logfilePresent := true
    proxyCmdPresent := false
    proxyPid := 0
    proxyLogfilePresent := false }

end Agent

namespace Remotestorage

/-- Completion message one per-file goroutine of `UploadDir` sends on
the shared channel pair: `donec <- struct{}{}` or `errc <- err`. -/
inductive TaskOutcome
  | done
  | fail (msg : String)
  deriving DecidableEq, Repr

/-- The orchestrating loop of `UploadDir` (part_000 lines 164-172):
starting from `cnt` messages still awaited, receive messages in
arrival order; an error message is returned at once, a done message is
counted; success once `cnt` reaches `num`.  `none` models blocking
forever (fewer messages than awaited). -/
def collectOutcomes : Nat → List TaskOutcome → Option (Except String Unit)
  | 0, _ => some (Except.ok ())
  | _ + 1, [] => none
  | n + 1, .done :: rest => collectOutcomes n rest
  | _ + 1, .fail e :: _ => some (Except.error e)

/-- A full `UploadDir` fan-in: one message per file, in arrival order. -/
def uploadDirRun (outcomes : List TaskOutcome) : Option (Except String Unit) :=
  collectOutcomes outcomes.length outcomes

/-- The first error message in arrival order, if any. -/
def firstFail : List TaskOutcome → Option String
  | [] => none
  | .done :: rest => firstFail rest
  | .fail e :: _ => some e

end Remotestorage

/-! ## Theorems settling the claims -/

namespace Agent

/-- C1 counterexample: at a state with a proxy process tracked (the
zetcd/cetcd engines) and both kills succeeding, the `Stop` trace closes
the primary log file before signaling the proxy process, so it is not
the case that process signaling wholly precedes log-file closing; the
claimed strict order wait-then-signals-then-closes-then-upload is false
at this concrete input. -/
theorem stop_order_claim_counterexample :
    ¬ ((stopRun true true true true true true).1.head? = some AgentEvent.gracewait ∧
       allBefore AgentEvent.isSignal AgentEvent.isClose
         (stopRun true true true true true true).1 = true ∧
       allBefore AgentEvent.isClose (fun e => e == AgentEvent.triggerUpload)
         (stopRun true true true true true true).1 = true) := by
  decide

/-- C1 (amended): for every `Stop` execution, the grace-period wait is
the first effect and precedes everything else; each process's signal
precedes the close of its own log file; every signal and every log
close precedes the upload trigger (so a log file is closed before
upload of that file is attempted); the upload pass is triggered exactly
on the success path, and then it is the last effect.  The signals and
closes interleave per process (primary signal, primary-log close, proxy
signal, proxy-log close) rather than all signals preceding all
closes. -/
theorem stop_effect_ordering (c l p pl ka kb : Bool) :
    (stopRun c l p pl ka kb).1.head? = some AgentEvent.gracewait ∧
    allBefore (fun e => e == AgentEvent.gracewait)
      (fun e => !(e == AgentEvent.gracewait)) (stopRun c l p pl ka kb).1 = true ∧
    allBefore (fun e => e == AgentEvent.signalPrimary)
      (fun e => e == AgentEvent.closePrimaryLog) (stopRun c l p pl ka kb).1 = true ∧
    allBefore (fun e => e == AgentEvent.signalProxy)
      (fun e => e == AgentEvent.closeProxyLog) (stopRun c l p pl ka kb).1 = true ∧
    allBefore AgentEvent.isSignal (fun e => e == AgentEvent.triggerUpload)
      (stopRun c l p pl ka kb).1 = true ∧
    allBefore AgentEvent.isClose (fun e => e == AgentEvent.triggerUpload)
      (stopRun c l p pl ka kb).1 = true ∧
    (stopRun c l p pl ka kb).2 =
      (stopRun c l p pl ka kb).1.contains AgentEvent.triggerUpload ∧
    ((stopRun c l p pl ka kb).2 = false ∨
      (stopRun c l p pl ka kb).1.getLast? = some AgentEvent.triggerUpload) := by
  cases c <;> cases l <;> cases p <;> cases pl <;> cases ka <;> cases kb <;> decide

/-- C2 counterexample: an `UploadLog` request handled while no process
is tracked (no log file open, empty state) does not return an error —
the handler has no nil-command check on this path and answers
success. -/
theorem idle_uploadLog_counterexample :
    ¬ ((uploadLogRun false).2 = false) := by
  decide

/-- C2 (amended): a `Stop` received while no process is tracked (nil
command handle) returns an error, but an `UploadLog` performs no such
check and returns success regardless of whether any process is
tracked. -/
theorem idle_stop_errors_uploadLog_succeeds (l p pl ka kb lg : Bool) :
    (stopRun false l p pl ka kb).2 = false ∧ (uploadLogRun lg).2 = true := by
  cases l <;> cases p <;> cases pl <;> cases ka <;> cases kb <;> cases lg <;> decide

/-- C3 counterexample: when signaling the tracked primary process fails
(process id vanished) with a log file open, the `Stop` handler returns
the error at once: the failure is reported, but — contrary to the
claim — the open log file is not closed. -/
theorem stop_kill_failure_counterexample :
    ¬ ((stopRun true true false false false true).2 = false ∧
       AgentEvent.closePrimaryLog ∈ (stopRun true true false false false true).1) := by
  decide

/-- C3 (amended): if signaling the tracked primary process id fails,
the failure is reported to the RPC caller (error return), and the
handler short-circuits: no log file is closed and no upload pass is
triggered. -/
theorem stop_kill_failure_leaves_logs_open (l p pl kb : Bool) :
    (stopRun true l p pl false kb).2 = false ∧
    AgentEvent.closePrimaryLog ∉ (stopRun true l p pl false kb).1 ∧
    AgentEvent.closeProxyLog ∉ (stopRun true l p pl false kb).1 ∧
    AgentEvent.triggerUpload ∉ (stopRun true l p pl false kb).1 := by
  cases l <;> cases p <;> cases pl <;> cases kb <;> decide

/-- C6 counterexample: after an `UploadLog`-triggered upload pass that
fails (the storage client could not be constructed), the monitoring
loop exits instead of continuing to sample, so `UploadLog` does not
always leave the monitoring loop running. -/
theorem uploadLog_loop_exit_counterexample :
    ¬ (loopStep (LoopEvent.uploadSignal Request_Operation.UploadLog false) =
        LoopDecision.continueLoop) := by
  decide

/-- C6 (amended): an `UploadLog` command never signals or terminates
the monitored process and never closes its log file, and after the
single upload pass it triggers, the monitoring loop continues sampling
on its 1-second timer provided the pass succeeded; if the pass returns
an error the loop exits.  Sample ticks themselves always continue the
loop. -/
theorem uploadLog_keeps_process_loop_on_success (lg ok : Bool) :
    AgentEvent.signalPrimary ∉ (uploadLogRun lg).1 ∧
    AgentEvent.signalProxy ∉ (uploadLogRun lg).1 ∧
    AgentEvent.closePrimaryLog ∉ (uploadLogRun lg).1 ∧
    AgentEvent.closeProxyLog ∉ (uploadLogRun lg).1 ∧
    (uploadLogRun lg).2 = true ∧
    loopStep (LoopEvent.uploadSignal Request_Operation.UploadLog ok) =
      (if ok then LoopDecision.continueLoop else LoopDecision.exitLoop) ∧
    loopStep (LoopEvent.timerTick ok) = LoopDecision.continueLoop ∧
    monitorSampleIntervalSeconds = 1 := by
  cases lg <;> cases ok <;> decide

/-- Left cancellation of string concatenation, via the character lists. -/
lemma append_cancel_left_str {a b c : String} (h : a ++ b = a ++ c) : b = c := by
  have hd := congrArg String.data h
  simp only [String.data_append] at hd
  exact String.ext (List.append_cancel_left hd)

/-- C5: an `UploadLog` command merges exactly the three remote-storage
destination fields (project, bucket, sub-directory) of the new command
into Controller State and changes nothing else — the tracked process
id, the command and log-file handles, and every other stored request
field are unchanged — and repeating the same `UploadLog` merge is
idempotent on Controller State. -/
theorem uploadLog_merge_frame (t : TransporterState) (r : Request)
    (h : r.Operation = Request_Operation.UploadLog) :
    (mergeRequest t r).cmdPresent = t.cmdPresent ∧
    (mergeRequest t r).pid = t.pid ∧
    (mergeRequest t r).logfilePresent = t.logfilePresent ∧
    (mergeRequest t r).proxyCmdPresent = t.proxyCmdPresent ∧
    (mergeRequest t r).proxyPid = t.proxyPid ∧
    (mergeRequest t r).proxyLogfilePresent = t.proxyLogfilePresent ∧
    (mergeRequest t r).req.GoogleCloudProjectName = r.GoogleCloudProjectName ∧
    (mergeRequest t r).req.GoogleCloudStorageBucketName =
      r.GoogleCloudStorageBucketName ∧
    (mergeRequest t r).req.GoogleCloudStorageSubDirectory =
      r.GoogleCloudStorageSubDirectory ∧
    (mergeRequest t r).req.Operation = t.req.Operation ∧
    (mergeRequest t r).req.Database = t.req.Database ∧
    (mergeRequest t r).req.PeerIPString = t.req.PeerIPString ∧
    (mergeRequest t r).req.ServerIndex = t.req.ServerIndex ∧
    (mergeRequest t r).req.ZookeeperMyID = t.req.ZookeeperMyID ∧
    (mergeRequest t r).req.ZookeeperMaxClientCnxns =
      t.req.ZookeeperMaxClientCnxns ∧
    (mergeRequest t r).req.ZookeeperSnapCount = t.req.ZookeeperSnapCount ∧
    (mergeRequest t r).req.GoogleCloudStorageKey =
      t.req.GoogleCloudStorageKey ∧
    (mergeRequest t r).req.TestName = t.req.TestName ∧
    mergeRequest (mergeRequest t r) r = mergeRequest t r := by
  simp [mergeRequest, h]

/-- Witness for the `UploadLog` merge frame theorem at a concrete
tracked state and request. -/
theorem uploadLog_merge_frame_witness :
    sampleRequest.Operation = Request_Operation.UploadLog ∧
    (mergeRequest sampleState sampleRequest).pid = sampleState.pid := by
  exact ⟨rfl, (uploadLog_merge_frame sampleState sampleRequest rfl).2.1⟩

/-- C7 counterexample: the destination-path derivation is not injective
on distinct `(test_name, server_index, base_file_name)` triples — a
base name that already carries the derived `{test}-{index+1}-` lead-in
collides with the bare base name: both triples below map to
`dir/t-1-x`. -/
theorem dst_derivation_collision_counterexample :
    dstPath "dir" "t" 0 "t-1-x" = dstPath "dir" "t" 0 "x" ∧
    ¬ (("t", (0 : Nat), "t-1-x") = ("t", (0 : Nat), "x")) := by
  constructor
  · decide
  · decide

/-- C7 (amended): the destination-path derivation is deterministic (a
pure function of the sub-directory, test name, server index and base
file name), but injectivity over all distinct triples fails; it is
injective in the base file name for a fixed sub-directory, test name
and server index when the base names do not already start with the
test name. -/
theorem dst_derivation_branch_injective
    (sub t : String) (i : Nat) (b1 b2 : String)
    (h1 : hasPrefixGo b1 t = false) (h2 : hasPrefixGo b2 t = false)
    (heq : dstPath sub t i b1 = dstPath sub t i b2) : b1 = b2 := by
  unfold dstPath joinPath dstName at heq
  rw [h1, h2] at heq
  simp only [Bool.false_eq_true, if_false] at heq
  by_cases hsub : sub = ""
  · simp only [if_pos hsub] at heq
    exact append_cancel_left_str heq
  · simp only [if_neg hsub] at heq
    exact append_cancel_left_str (append_cancel_left_str heq)

/-- Witness for the branch-restricted injectivity theorem at concrete
artifact names. -/
theorem dst_derivation_branch_injective_witness :
    hasPrefixGo "database.log" "test" = false ∧
    ("database.log" : String) = "database.log" := by
  refine ⟨by decide, ?_⟩
  exact dst_derivation_branch_injective "subdir" "test" 1 "database.log"
    "database.log" (by decide) (by decide) rfl

/-- The retry loop never makes more attempts than it has iterations left. -/
lemma retryLoop_attempts_le (upload : Nat → Bool) (remaining : Nat) :
    ∀ k, (retryLoop upload k remaining).attempts ≤ remaining := by
  induction remaining with
  | zero => intro k; simp [retryLoop]
  | succ r ih =>
      intro k
      by_cases h : upload k = true
      · simp [retryLoop, h]
      · simp only [retryLoop, h, if_false, Bool.false_eq_true]
        exact Nat.succ_le_succ (ih (k + 1))

/-- If the first success is the `m`-th attempt counted from `k` and the
loop has more than `m` iterations left, it makes exactly `m + 1`
attempts, succeeds, and sleeps the backoff once per failed attempt. -/
lemma retryLoop_first_success (upload : Nat → Bool) :
    ∀ (m remaining k : Nat), m < remaining → upload (k + m) = true →
      (∀ j, j < m → upload (k + j) = false) →
      retryLoop upload k remaining = ⟨m + 1, true, retryBackoffSeconds * m⟩ := by
  intro m
  induction m with
  | zero =>
      intro remaining k hm hs _
      match remaining, hm with
      | r + 1, _ =>
          have hk : upload k = true := by simpa using hs
          simp [retryLoop, hk]
  | succ m ih =>
      intro remaining k hm hs hf
      match remaining, hm with
      | r + 1, hm =>
          have hk : upload k = false := by simpa using hf 0 (Nat.succ_pos m)
          have hrec : retryLoop upload (k + 1) r =
              ⟨m + 1, true, retryBackoffSeconds * m⟩ := by
            refine ih r (k + 1) (Nat.lt_of_succ_lt_succ hm) ?_ ?_
            · have : k + 1 + m = k + (m + 1) := by omega
              rw [this]; exact hs
            · intro j hj
              have : k + 1 + j = k + (j + 1) := by omega
              rw [this]; exact hf (j + 1) (Nat.succ_lt_succ hj)
          simp only [retryLoop, hk, if_false, Bool.false_eq_true, hrec]
          refine congrArg₂ _ rfl ?_ |>.trans rfl
          simp [Nat.mul_succ]

/-- If every remaining attempt fails, the loop exhausts all iterations,
reports failure, and sleeps the backoff after every failed attempt. -/
lemma retryLoop_all_fail (upload : Nat → Bool) :
    ∀ (remaining k : Nat), (∀ j, j < remaining → upload (k + j) = false) →
      retryLoop upload k remaining =
        ⟨remaining, false, retryBackoffSeconds * remaining⟩ := by
  intro remaining
  induction remaining with
  | zero => intro k _; simp [retryLoop]
  | succ r ih =>
      intro k hf
      have hk : upload k = false := by simpa using hf 0 (Nat.succ_pos r)
      have hrec : retryLoop upload (k + 1) r =
          ⟨r, false, retryBackoffSeconds * r⟩ := by
        refine ih (k + 1) ?_
        intro j hj
        have : k + 1 + j = k + (j + 1) := by omega
        rw [this]; exact hf (j + 1) (Nat.succ_lt_succ hj)
      simp only [retryLoop, hk, if_false, Bool.false_eq_true, hrec]
      simp [Nat.mul_succ]

/-- C4: the per-artifact retry loop makes at most 30 attempts with the
fixed 2-second backoff after each failed attempt; if the uploader first
succeeds on attempt `N` with `N ≤ 30`, the loop performs exactly `N`
attempts, reports the artifact uploaded, and has slept the backoff once
per failed attempt; if all 30 attempts fail the artifact is abandoned
(failure reported after 30 attempts), and the upload pass still
attempts the remaining artifacts — every `uploadFunc` run with a
working storage client produces reports for the database log, the
monitoring table, and the agent log, each from its own retry loop. -/
theorem upload_retry_policy (upload : Nat → Bool) (N : Nat)
    (h1 : 1 ≤ N) (h2 : N ≤ 30)
    (hs : upload (N - 1) = true)
    (hf : ∀ j, j < N - 1 → upload j = false) :
    uploadRetry upload = ⟨N, true, retryBackoffSeconds * (N - 1)⟩ ∧
    (∀ g : Nat → Bool, (uploadRetry g).attempts ≤ retryLimit) ∧
    (∀ g : Nat → Bool, (∀ j, j < retryLimit → g j = false) →
        uploadRetry g = ⟨retryLimit, false, retryBackoffSeconds * retryLimit⟩) ∧
    (∀ (req : Request) (env : UploadEnv), env.newClientOk = true →
        ∃ l, uploadFuncModel req env = Except.ok l ∧
          runArtifact req env 0 databaseLogBase ∈ l ∧
          runArtifact req env 2 monitorLogBase ∈ l ∧
          runArtifact req env 3 agentLogBase ∈ l) := by
  refine ⟨?_, ?_, ?_, ?_⟩
  · have hres := retryLoop_first_success upload (N - 1) retryLimit 0
      (by unfold retryLimit; omega)
      (by simpa using hs) (by simpa using hf)
    have hN : N - 1 + 1 = N := by omega
    rw [uploadRetry, hres, hN]
  · intro g
    exact retryLoop_attempts_le g retryLimit 0
  · intro g hg
    exact retryLoop_all_fail g retryLimit 0 (by simpa using hg)
  · intro req env henv
    rw [uploadFuncModel]
    simp only [henv, Bool.not_true, Bool.false_eq_true, if_false]
    refine ⟨_, rfl, ?_, ?_, ?_⟩ <;>
      simp [List.mem_append]

/-- Witness for the retry-policy theorem: an uploader failing once and
succeeding on the second attempt yields exactly two attempts, success,
and one 2-second backoff sleep. -/
theorem upload_retry_policy_witness :
    uploadRetry (fun j => j == 1) = ⟨2, true, 2⟩ := by
  have h := upload_retry_policy (fun j => j == 1) 2 (by decide) (by decide)
    (by decide) (by decide)
  simpa [retryBackoffSeconds] using h.1

/-- Mapping a binary function over an indexed list, starting the index
at `n`, equals mapping over the index range with positional lookup. -/
lemma enumFrom_map_eq_range_map (g : Nat → String → String) :
    ∀ (l : List String) (n : Nat),
      (List.enumFrom n l).map (fun q => g q.1 q.2) =
        (List.range l.length).map (fun i => g (n + i) (l.getD i "")) := by
  intro l
  induction l with
  | nil => intro n; simp
  | cons x xs ih =>
      intro n
      simp only [List.enumFrom, List.map_cons, List.length_cons,
        List.range_succ_eq_map, List.map_map]
      refine congrArg₂ List.cons (by simp) ?_
      rw [ih (n + 1)]
      refine List.map_congr_left ?_
      intro i _
      simp only [Function.comp_apply, List.getD_cons_succ]
      congr 1
      omega

/-- The cluster string the etcd branch builds coincides with the
spec's membership formula. -/
lemma clusterStr_eq_specClusterMembership (peerIPs : List String) :
    clusterStr peerIPs = specClusterMembership peerIPs := by
  unfold clusterStr specClusterMembership etcdMembers
  rw [show peerIPs.enum = List.enumFrom 0 peerIPs from rfl,
    enumFrom_map_eq_range_map (fun i ip => memberStr i ip) peerIPs 0]
  refine congrArg _ (List.map_congr_left ?_)
  intro i _
  simp [memberStr, etcdName, peerURL, String.append_assoc]

/-- C8: for every `Start` request handled by the etcd-family branch (a
request of any field content) and its `n`-element ordered peer list,
the primary process's flag list ends with `--initial-cluster` set to
the comma-join of the `n` pairs `etcd-{i+1}={peer URL at position i}`
built from all peers in order, followed by
`--initial-cluster-state new`; the membership string has one member per
peer and depends on nothing but the peer list. -/
theorem start_etcd_initial_cluster_flags (r : Request) (dataDir : String) :
    (∃ fs, startEtcdFlags r dataDir = fs ++
        ["--initial-cluster", specClusterMembership (splitPeers r.PeerIPString),
         "--initial-cluster-state", "new"]) ∧
    clusterStr (splitPeers r.PeerIPString) =
      specClusterMembership (splitPeers r.PeerIPString) ∧
    (etcdMembers (splitPeers r.PeerIPString)).length =
      (splitPeers r.PeerIPString).length := by
  refine ⟨⟨[ "--name", etcdName r.ServerIndex, "--data-dir", dataDir,
      "--listen-client-urls", clientURL ((splitPeers r.PeerIPString).getD r.ServerIndex ""),
      "--advertise-client-urls", clientURL ((splitPeers r.PeerIPString).getD r.ServerIndex ""),
      "--listen-peer-urls", peerURL ((splitPeers r.PeerIPString).getD r.ServerIndex ""),
      "--initial-advertise-peer-urls", peerURL ((splitPeers r.PeerIPString).getD r.ServerIndex ""),
      "--initial-cluster-token", etcdToken ], ?_⟩, ?_, ?_⟩
  · unfold startEtcdFlags etcdFlags
    rw [clusterStr_eq_specClusterMembership]
    rfl
  · exact clusterStr_eq_specClusterMembership _
  · simp [etcdMembers]

end Agent

namespace Remotestorage

/-- C9: the fan-in loop of `UploadDir`, fed the completion messages of
its per-file tasks in arrival order (one message per file), terminates;
it reports success exactly when no task failed — only after all files
have reported completion — and otherwise returns exactly the first
error received, never claiming success for the directory. -/
theorem uploadDir_first_error_wins (outcomes : List TaskOutcome) :
    uploadDirRun outcomes ≠ none ∧
    (uploadDirRun outcomes = some (Except.ok ()) ↔ firstFail outcomes = none) ∧
    (∀ e, uploadDirRun outcomes = some (Except.error e) ↔
      firstFail outcomes = some e) := by
  induction outcomes with
  | nil => simp [uploadDirRun, collectOutcomes, firstFail]
  | cons o rest ih =>
      cases o with
      | done =>
          have hrec : uploadDirRun (TaskOutcome.done :: rest) = uploadDirRun rest := rfl
          rw [hrec]
          simpa [firstFail] using ih
      | fail e => simp [uploadDirRun, collectOutcomes, firstFail]

end Remotestorage

namespace Agent

/-- Every report a successful `uploadFunc` run returns comes from one
artifact's own retry loop. -/
lemma uploadFuncModel_mem_shape (req : Request) (env : UploadEnv)
    (henv : env.newClientOk = true) (l : List ArtifactReport)
    (hl : uploadFuncModel req env = Except.ok l) :
    ∀ rep ∈ l, ∃ slot base, rep = runArtifact req env slot base := by
  rw [uploadFuncModel] at hl
  simp only [henv, Bool.not_true, Bool.false_eq_true, if_false,
    Except.ok.injEq] at hl
  subst hl
  intro rep hrep
  simp only [List.mem_append, List.mem_cons, List.mem_singleton,
    List.not_mem_nil, or_false] at hrep
  rcases hrep with (h | h) | h | h
  · exact ⟨0, databaseLogBase, h⟩
  · split at h
    · split at h
      · simp only [List.mem_singleton] at h
        exact ⟨1, databaseLogBase ++ "-" ++ req.Database.str, h⟩
      · exact absurd h (List.not_mem_nil rep)
    · exact absurd h (List.not_mem_nil rep)
  · exact ⟨2, monitorLogBase, h⟩
  · exact ⟨3, agentLogBase, h⟩

/-- C10: the upload pass (`uploadFunc`) returns an error exactly when
constructing the remote-storage client from the stored key and project
fails; with a working client every per-artifact outcome — including
exhausting all 30 retries for every artifact — still yields a
successful pass, so retry exhaustion is never surfaced as a failed
pass. -/
theorem upload_pass_error_only_on_client_failure (req : Request) (env : UploadEnv) :
    ((∃ l, uploadFuncModel req env = Except.ok l) ↔ env.newClientOk = true) ∧
    (∃ l, uploadFuncModel req
        { env with newClientOk := true, attemptOk := fun _ _ => false } =
          Except.ok l ∧
        ∀ rep ∈ l, rep.attempts = retryLimit ∧ rep.uploaded = false) := by
  constructor
  · constructor
    · rintro ⟨l, hl⟩
      by_contra hno
      rw [uploadFuncModel] at hl
      simp [Bool.not_eq_true] at hno
      simp [hno] at hl
    · intro hok
      rw [uploadFuncModel]
      simp only [hok, Bool.not_true, Bool.false_eq_true, if_false]
      exact ⟨_, rfl⟩
  · have hart : ∀ slot base,
        runArtifact req { env with newClientOk := true, attemptOk := fun _ _ => false }
          slot base =
        ⟨dstPath req.GoogleCloudStorageSubDirectory req.TestName req.ServerIndex base,
          retryLimit, false⟩ := by
      intro slot base
      have hall := retryLoop_all_fail (fun _ => false) retryLimit 0
        (fun j _ => rfl)
      simp only [runArtifact, uploadRetry, hall]
    have hok : ∃ l, uploadFuncModel req
        { env with newClientOk := true, attemptOk := fun _ _ => false } =
          Except.ok l := by
      rw [uploadFuncModel]
      simp only [Bool.not_true, Bool.false_eq_true, if_false]
      exact ⟨_, rfl⟩
    obtain ⟨l, hl⟩ := hok
    refine ⟨l, hl, ?_⟩
    intro rep hrep
    obtain ⟨slot, base, hshape⟩ :=
      uploadFuncModel_mem_shape req _ rfl l hl rep hrep
    rw [hshape, hart]
    exact ⟨rfl, rfl⟩

end Agent
